import Mathlib

/-
Verification of the Daily Pennsylvanian headline scraper (src/script.py).

The source is shallowly embedded: the parsed HTML document is a rose tree,
BeautifulSoup queries (`find` / `findAll` with tag and class filters) are
pre-order searches over that tree, Python string operations (`strip`,
substring `in`) are modelled on character lists, Python dict assignment is
an in-place-overwrite-or-append update on association lists, and code that
can raise `AttributeError` returns `Except`.  The network response carries a
success flag and the parsed document; the orchestrator draws one response
per HTTP request from a stream `net : Nat -> Response`, with an explicit
counter recording how many requests have been issued.

The `DailyEventMonitor` store (module `daily_event_monitor`) is not part of
src/, so its three operations are modelled from the spec, as marked on their
doc comments.
-/

namespace DPS

/-- Whitespace test used by the embeddings of Python `str.strip` and of
HTML class-attribute tokenisation. -/
def isWS (c : Char) : Bool := c == ' ' || c == '\t' || c == '\n' || c == '\r'

/-- Drop leading whitespace characters from a character list. -/
def dropWS : List Char → List Char
  | [] => []
  | c :: cs => if isWS c then dropWS cs else c :: cs

/-- Embeds Python `str.strip()`: remove leading and trailing whitespace. -/
def pyStrip (s : String) : String :=
  String.mk ((dropWS (dropWS s.data).reverse).reverse)

/-- Does the first character list occur at the head of the second? -/
def leadsWith : List Char → List Char → Bool
  | [], _ => true
  | _ :: _, [] => false
  | n :: ns, h :: hs => n == h && leadsWith ns hs

/-- Does the first character list occur anywhere inside the second? -/
def occursIn : List Char → List Char → Bool
  | ns, [] => ns.isEmpty
  | ns, h :: hs => leadsWith ns (h :: hs) || occursIn ns hs

/-- Embeds the Python substring test `needle in hay`. -/
def substrOf (needle hay : String) : Bool := occursIn needle.data hay.data

/-- Accumulator-based whitespace tokeniser (accumulator holds the current
word reversed). -/
def wordsAux : List Char → List Char → List String
  | cur, [] => if cur.isEmpty then [] else [String.mk cur.reverse]
  | cur, c :: cs =>
    if isWS c then
      if cur.isEmpty then wordsAux [] cs
      else String.mk cur.reverse :: wordsAux [] cs
    else wordsAux (c :: cur) cs

/-- Split an HTML class attribute value into its class tokens. -/
def classWords (s : String) : List String := wordsAux [] s.data

/-- Parsed HTML node: either a text node or an element with a tag name, an
attribute list and children.  This is the tree BeautifulSoup produces from
`req.text`. -/
inductive Node where
  | txt : String → Node
  | el : String → List (String × String) → List Node → Node

mutual
/-- Concatenated text content of a node (BeautifulSoup `.text`). -/
def nodeText : Node → String
  | .txt s => s
  | .el _ _ cs => listText cs
/-- Concatenated text content of a list of nodes. -/
def listText : List Node → String
  | [] => ""
  | c :: cs => nodeText c ++ listText cs
end

mutual
/-- A node (if it is an element) followed by its descendant elements, in
document (pre-)order. -/
def selfAnd : Node → List Node
  | .txt _ => []
  | .el t a cs => .el t a cs :: descendList cs
/-- All elements occurring in a forest, in document (pre-)order. -/
def descendList : List Node → List Node
  | [] => []
  | c :: cs => selfAnd c ++ descendList cs
end

/-- Descendant elements of a node, in document order (the search space of
BeautifulSoup `find` / `findAll` on that node). -/
def descend : Node → List Node
  | .txt _ => []
  | .el _ _ cs => descendList cs

/-- Attribute lookup on a node (BeautifulSoup `.get`): `none` when absent. -/
def attrOf (n : Node) (k : String) : Option String :=
  match n with
  | .txt _ => none
  | .el _ attrs _ => attrs.lookup k

/-- Class-selector match, following BeautifulSoup: a selector containing a
space matches the exact class attribute string, a single-word selector
matches any one of the attribute's whitespace-separated tokens. -/
def classMatches (sel : String) (attrVal : Option String) : Bool :=
  match attrVal with
  | none => false
  | some a => if (sel.data.any fun c => c == ' ') then a == sel else (classWords a).contains sel

/-- Selector `tag` + `class_` as used by `soup.find(tag, class_=...)`. -/
def isSel (tag cls : String) (n : Node) : Bool :=
  match n with
  | .txt _ => false
  | .el t attrs _ => t == tag && classMatches cls (attrs.lookup "class")

/-- Selector by tag name only, as used by `li.find("a")`. -/
def isTag (tag : String) (n : Node) : Bool :=
  match n with
  | .txt _ => false
  | .el t _ _ => t == tag

/-- Embeds BeautifulSoup `findAll`: every descendant element matching the
predicate, in document order. -/
def findAllN (n : Node) (p : Node → Bool) : List Node := (descend n).filter p

/-- Embeds BeautifulSoup `find`: the first descendant element matching the
predicate, or `none`. -/
def findN (n : Node) (p : Node → Bool) : Option Node := (findAllN n p).head?

/-- Result of one `requests.get`: the success flag `req.ok` and the document
parsed from `req.text`. -/
structure Response where
  ok : Bool
  doc : Node

/-- Embeds `scrape_data_point` (src/script.py lines 16-32): on a successful
fetch, the text of the first `a.frontpage-link` element (empty string when
absent, and the text is NOT stripped); on a failed fetch the function falls
off the `if` and returns Python `None`, embedded as `none`. -/
def scrape_data_point (req : Response) : Option String :=
  if req.ok then
    let target_element := findN req.doc (isSel "a" "frontpage-link")
    some (match target_element with
          | none => ""
          | some e => nodeText e)
  else
    none

/-- The `div.special-edition` containers (src/script.py line 48). -/
def specialDivs (doc : Node) : List Node :=
  findAllN doc (isSel "div" "special-edition")

/-- The nested link searched for inside each special-edition container
(src/script.py line 49). -/
def featLink (item : Node) : Option Node :=
  findN item (isSel "a" "frontpage-link standard-link")

/-- Embeds the comprehension `[str(a.text.strip()) for a in target_a_items]`
(src/script.py line 51): it raises `AttributeError` at the first `None`
produced by a failed `find`. -/
def textsOf : List (Option Node) → Except String (List String)
  | [] => .ok []
  | none :: _ => .error "AttributeError"
  | some a :: rest =>
    match textsOf rest with
    | .error e => .error e
    | .ok ts => .ok (pyStrip (nodeText a) :: ts)

/-- Embeds `scrape_featured_headlines` (src/script.py lines 34-54). -/
def scrape_featured_headlines (req : Response) : Except String (List String) :=
  if req.ok then
    textsOf ((specialDivs req.doc).map featLink)
  else
    .ok []

/-- The `div` elements whose class attribute is exactly
`story sidebar-story` (src/script.py line 70). -/
def sidebarDivs (doc : Node) : List Node :=
  findAllN doc (isSel "div" "story sidebar-story")

/-- Embeds `scrape_most_recent_headlines` (src/script.py lines 56-75). -/
def scrape_most_recent_headlines (req : Response) : List String :=
  if req.ok then
    (sidebarDivs req.doc).map (fun a => pyStrip (nodeText a))
  else
    []

/-- Embeds Python dict assignment `d[k] = v` on an insertion-ordered
association list: overwrite in place when the key exists, append otherwise. -/
def dictUpd {α : Type} : List (String × α) → String → α → List (String × α)
  | [], k, v => [(k, v)]
  | (k', v') :: rest, k, v =>
    if k' == k then (k, v) :: rest else (k', v') :: dictUpd rest k v

/-- Embeds the href-collection loop of `scrape_social_media_links`
(src/script.py lines 97-102): for each `li`, `li.find("a")` (raising
`AttributeError` when no link exists), then keep the `href` when it is
present and non-empty. -/
def collectHrefs : List Node → Except String (List String)
  | [] => .ok []
  | li :: rest =>
    match findN li (isTag "a") with
    | none => .error "AttributeError"
    | some a =>
      match attrOf a "href" with
      | some h =>
        if h.isEmpty then collectHrefs rest
        else
          match collectHrefs rest with
          | .error e => .error e
          | .ok ls => .ok (h :: ls)
      | none => collectHrefs rest

/-- Embeds one iteration of the classification loop of
`scrape_social_media_links` (src/script.py lines 105-111): the if/elif
chain over the three platform substrings. -/
def formatStep (out : List (String × String)) (link : String) : List (String × String) :=
  if substrOf "facebook.com" link then dictUpd out "facebook" link
  else if substrOf "twitter.com" link then dictUpd out "twitter" link
  else if substrOf "instagram.com" link then dictUpd out "instagram" link
  else out

/-- The whole classification loop: fold `formatStep` over the collected
links starting from the empty dict. -/
def formatLinks (links : List String) : List (String × String) :=
  links.foldl formatStep []

/-- The platform key a link would be classified under, mirroring the
if/elif chain of src/script.py lines 106-111. -/
def classifyKey (link : String) : Option String :=
  if substrOf "facebook.com" link then some "facebook"
  else if substrOf "twitter.com" link then some "twitter"
  else if substrOf "instagram.com" link then some "instagram"
  else none

/-- Embeds `scrape_social_media_links` (src/script.py lines 77-115): on a
successful fetch, find `ul.social-icons` (attribute access on the missing
container raises), collect the hrefs of each list item's first link, then
classify them. -/
def scrape_social_media_links (req : Response) : Except String (List (String × String)) :=
  if req.ok then
    match findN req.doc (isSel "ul" "social-icons") with
    | none => .error "AttributeError"
    | some target_ul =>
      match collectHrefs (findAllN target_ul (isTag "li")) with
      | .error e => .error e
      | .ok links => .ok (formatLinks links)
  else
    .ok []

/-- JSON-like value stored per date key in the backing file. -/
inductive JVal where
  | s : String → JVal
  | arr : List String → JVal
  | obj : List (String × JVal) → JVal

/-- Modelled from the spec: the `DailyEventMonitor` state (module
`daily_event_monitor`, not in src/) — the in-memory date-keyed mapping and
the contents of the backing file. -/
structure DEM where
  mem : List (String × JVal)
  file : List (String × JVal)

/-- Modelled from the spec: `load` reads the backing file (if present) into
memory; an absent or empty file yields an empty store. -/
def DEM.load (contents : List (String × JVal)) : DEM := ⟨contents, contents⟩

/-- Modelled from the spec: `add_today` inserts or overwrites the entry for
the current calendar date with the given value (last-write-wins, keys
unique per day). -/
def DEM.add_today (d : DEM) (today : String) (v : JVal) : DEM :=
  { d with mem := dictUpd d.mem today v }

/-- Modelled from the spec: `save` serialises the entire in-memory mapping
back to the backing file (full-file rewrite). -/
def DEM.save (d : DEM) : DEM := { d with file := d.mem }

/-- The four scrape results held by `__main__` after the try/except block
(src/script.py lines 139-151); `none` in a field embeds Python `None`. -/
structure RunResults where
  data_point : Option String
  feat_headlines : Option (List String)
  most_recent : Option (List String)
  social_media : Option (List (String × String))

/-- Network modelled as a stream of responses together with a counter of
how many `requests.get` calls have been issued so far. -/
structure FetchState where
  net : Nat → Response
  count : Nat

/-- One `requests.get`: consume the next response and bump the counter. -/
def doFetch (s : FetchState) : Response × FetchState :=
  (s.net s.count, ⟨s.net, s.count + 1⟩)

/-- Embeds the try/except scrape block of `__main__` (src/script.py lines
139-151).  Each of the four scraper functions issues its own fetch; an
exception escaping any of them aborts the block and sets all four results
to `None`. -/
def runScrape (s : FetchState) : RunResults × FetchState :=
  let p0 := doFetch s
  let data_point := scrape_data_point p0.1
  let p1 := doFetch p0.2
  match scrape_featured_headlines p1.1 with
  | .error _ => (⟨none, none, none, none⟩, p1.2)
  | .ok feat_headlines =>
    let p2 := doFetch p1.2
    let most_recent := scrape_most_recent_headlines p2.1
    let p3 := doFetch p2.2
    match scrape_social_media_links p3.1 with
    | .error _ => (⟨none, none, none, none⟩, p3.2)
    | .ok social_media =>
      (⟨data_point, some feat_headlines, some most_recent, some social_media⟩, p3.2)

/-- Embeds the construction of `my_out` (src/script.py lines 159-169): a
dict receiving, in order, the fields whose scrape result is not `None`. -/
def myOut (r : RunResults) : List (String × JVal) :=
  (match r.feat_headlines with
   | some f => [("featured_headlines", JVal.arr f)]
   | none => []) ++
  (match r.most_recent with
   | some m => [("recent_headlines", JVal.arr m)]
   | none => []) ++
  (match r.social_media with
   | some sm => [("social_links", JVal.obj (sm.map fun p => (p.1, JVal.s p.2)))]
   | none => [])

/-- Embeds the save phase of `__main__` (src/script.py lines 153-173): when
`data_point` is not `None`, `add_today` + `save` with the scalar headline;
then unconditionally `add_today` + `save` with `my_out`. -/
def savePhase (dem : DEM) (today : String) (r : RunResults) : DEM :=
  let dem1 := match r.data_point with
    | some dp => ((dem.add_today today (JVal.s dp)).save)
    | none => dem
  ((dem1.add_today today (JVal.obj (myOut r))).save)

/-- Embeds one full run of `__main__` (src/script.py lines 118-173): load
the store from the backing file, run the scrape block, run the save phase. -/
def runMain (today : String) (net : Nat → Response) (contents : List (String × JVal)) : DEM :=
  savePhase (DEM.load contents) today (runScrape ⟨net, 0⟩).1

/-- An element-free document. -/
def emptyDoc : Node := Node.el "html" [] []

/-- A network where every fetch fails (`ok = False`). -/
def failNet : Nat → Response := fun _ => ⟨false, emptyDoc⟩

/-- The value `__main__` stores for today when every fetch failed: all
three detail fields present but empty. -/
def emptyOut : JVal :=
  JVal.obj [("featured_headlines", JVal.arr []),
            ("recent_headlines", JVal.arr []),
            ("social_links", JVal.obj [])]

/-- Document whose front-page link text carries surrounding whitespace. -/
def c3doc : Node :=
  Node.el "root" [] [Node.el "a" [("class", "frontpage-link")] [Node.txt " X "]]

/-- Successful response around `c3doc`. -/
def c3resp : Response := ⟨true, c3doc⟩

/-- A single failed response (`ok = False`). -/
def failResp : Response := ⟨false, emptyDoc⟩

/-- Document with two special-edition containers, each holding a valid
nested link. -/
def c4doc : Node :=
  Node.el "html" []
    [Node.el "div" [("class", "special-edition")]
       [Node.el "a" [("class", "frontpage-link standard-link")] [Node.txt " T1 "]],
     Node.el "div" [("class", "special-edition")]
       [Node.el "a" [("class", "frontpage-link standard-link")] [Node.txt "T2"]]]

/-- Successful response around `c4doc`. -/
def c4resp : Response := ⟨true, c4doc⟩

/-- Document with one special-edition container whose link does not match
the required class signature. -/
def c5doc : Node :=
  Node.el "html" []
    [Node.el "div" [("class", "special-edition")]
       [Node.el "a" [("class", "frontpage-link")] [Node.txt "T"]]]

/-- Successful response around `c5doc`. -/
def c5resp : Response := ⟨true, c5doc⟩

/-- Document with a social-icons list holding a facebook link, a twitter
link and one unrelated link. -/
def c7doc : Node :=
  Node.el "html" []
    [Node.el "ul" [("class", "social-icons")]
       [Node.el "li" [] [Node.el "a" [("href", "https://facebook.com/x")] []],
        Node.el "li" [] [Node.el "a" [("href", "https://twitter.com/y")] []],
        Node.el "li" [] [Node.el "a" [("href", "https://example.com/z")] []]]]

/-- Successful response around `c7doc`. -/
def c7resp : Response := ⟨true, c7doc⟩

/-- Successful response around a document with no social-icons container
(and no sidebar stories). -/
def c8resp : Response := ⟨true, emptyDoc⟩

/-- Document containing only an empty social-icons list, so that every
extractor succeeds. -/
def goodDoc : Node :=
  Node.el "html" [] [Node.el "ul" [("class", "social-icons")] []]

/-- Network where every fetch succeeds and returns `goodDoc`. -/
def goodNet : Nat → Response := fun _ => ⟨true, goodDoc⟩

/-- Network where every fetch succeeds but returns a document without the
social-icons container, so the social extractor raises. -/
def crashNet : Nat → Response := fun _ => ⟨true, emptyDoc⟩

/-- Python dict assignment stores the given value under the given key. -/
theorem lookup_dictUpd {α : Type} (d : List (String × α)) (k : String) (v : α) :
    List.lookup k (dictUpd d k v) = some v := by
  induction d with
  | nil => simp [dictUpd, List.lookup]
  | cons p rest ih =>
    obtain ⟨k', v'⟩ := p
    by_cases h : k' = k
    · subst h; simp [dictUpd, List.lookup]
    · have hb : (k' == k) = false := by simp [h]
      have hb' : (k == k') = false := by simp [Ne.symm h]
      simp [dictUpd, List.lookup, hb, hb', ih]

/-- Number of entries of an association list carrying the given key. -/
def countKey {α : Type} (k : String) (d : List (String × α)) : Nat :=
  (d.filter fun p => p.1 == k).length

/-- Recurrence for `countKey` over a cons cell. -/
theorem countKey_cons {α : Type} (k k' : String) (v : α) (d : List (String × α)) :
    countKey k ((k', v) :: d) = (if k' = k then 1 else 0) + countKey k d := by
  by_cases h : k' = k
  · subst h; simp [countKey, List.filter_cons]; omega
  · simp [countKey, List.filter_cons, h]

/-- Python dict assignment never duplicates a key: starting from a dict
holding the key at most once, it holds it exactly once afterwards. -/
theorem countKey_dictUpd {α : Type} (d : List (String × α)) (k : String) (v : α)
    (h : countKey k d ≤ 1) : countKey k (dictUpd d k v) = 1 := by
  induction d with
  | nil => simp [countKey, dictUpd, List.filter_cons]
  | cons p rest ih =>
    obtain ⟨k', v'⟩ := p
    by_cases hk : k' = k
    · subst hk
      rw [show dictUpd ((k', v') :: rest) k' v = (k', v) :: rest from by simp [dictUpd]]
      rw [countKey_cons] at h ⊢
      simp at h ⊢
      omega
    · rw [show dictUpd ((k', v') :: rest) k v = (k', v') :: dictUpd rest k v from by
        simp [dictUpd, hk]]
      rw [countKey_cons] at h ⊢
      simp [hk] at h ⊢
      exact ih h

/-- When every `find` succeeded, the text comprehension returns one trimmed
text per element, in order. -/
theorem textsOf_allSome (os : List (Option Node)) (h : ∀ o ∈ os, o.isSome = true) :
    ∃ l, textsOf os = .ok l ∧
      l.map some = os.map (fun o => o.map fun a => pyStrip (nodeText a)) := by
  induction os with
  | nil => exact ⟨[], rfl, rfl⟩
  | cons o os ih =>
    obtain ⟨a, rfl⟩ := Option.isSome_iff_exists.mp (h o (List.mem_cons_self o os))
    obtain ⟨l, hl, hmap⟩ := ih (fun o ho => h o (List.mem_cons_of_mem _ ho))
    refine ⟨pyStrip (nodeText a) :: l, ?_, ?_⟩
    · simp [textsOf, hl]
    · simp [hmap]

/-- When some `find` produced `None`, the text comprehension raises. -/
theorem textsOf_hasNone (os : List (Option Node)) (h : none ∈ os) :
    ∃ e, textsOf os = .error e := by
  induction os with
  | nil => simp at h
  | cons o os ih =>
    match o with
    | none => exact ⟨"AttributeError", rfl⟩
    | some a =>
      have h' : none ∈ os := by
        rcases List.mem_cons.mp h with h0 | h0
        · exact absurd h0 (by simp)
        · exact h0
      obtain ⟨e, he⟩ := ih h'
      exact ⟨e, by simp [textsOf, he]⟩

/-- The if/elif chain of the classification loop acts by storing the link
under its classified platform key, or dropping it. -/
theorem formatStep_classify (out : List (String × String)) (link : String) :
    formatStep out link =
      match classifyKey link with
      | some k => dictUpd out k link
      | none => out := by
  unfold formatStep classifyKey
  by_cases h1 : substrOf "facebook.com" link = true
  · simp [h1]
  · by_cases h2 : substrOf "twitter.com" link = true
    · simp [h1, h2]
    · by_cases h3 : substrOf "instagram.com" link = true
      · simp [h1, h2, h3]
      · simp [h1, h2, h3]

/-- Shape of a run of the scrape block on which neither the featured nor
the social extractor raises: four fetches are issued (the counter advances
by four) and each extractor consumes the response of its own fetch. -/
theorem runScrape_spec (net : Nat → Response) (c : Nat) (l : List String)
    (d : List (String × String))
    (hfeat : scrape_featured_headlines (net (c + 1)) = .ok l)
    (hsoc : scrape_social_media_links (net (c + 3)) = .ok d) :
    runScrape ⟨net, c⟩ =
      (⟨scrape_data_point (net c), some l,
        some (scrape_most_recent_headlines (net (c + 2))), some d⟩,
       ⟨net, c + 4⟩) := by
  simp only [runScrape, doFetch]
  rw [hfeat, hsoc]

/-- The save phase ends in a `save` of a store whose entry for today is the
combined mapping. -/
theorem savePhase_out (dem : DEM) (today : String) (r : RunResults) :
    (savePhase dem today r).file = (savePhase dem today r).mem ∧
    List.lookup today (savePhase dem today r).file = some (JVal.obj (myOut r)) := by
  cases hdp : r.data_point <;>
    simp [savePhase, hdp, DEM.add_today, DEM.save, lookup_dictUpd]

/-- After a full run, the backing file equals the in-memory store and its
entry for today is the combined mapping built from the run's results. -/
theorem lookup_runMain (today : String) (net : Nat → Response)
    (contents : List (String × JVal)) :
    (runMain today net contents).file = (runMain today net contents).mem ∧
    List.lookup today (runMain today net contents).file =
      some (JVal.obj (myOut (runScrape ⟨net, 0⟩).1)) := by
  unfold runMain
  exact savePhase_out (DEM.load contents) today (runScrape ⟨net, 0⟩).1


/-- C1 counterexample: with every fetch failing and an initially empty
store file, the run still writes an entry for today (the empty-valued
mapping) and the file is no longer empty. -/
theorem C1_counterexample :
    (runMain "2026-02-03" failNet []).file = [("2026-02-03", emptyOut)] ∧
    List.lookup "2026-02-03" (runMain "2026-02-03" failNet []).file = some emptyOut ∧
    ¬ (runMain "2026-02-03" failNet []).file = ([] : List (String × JVal)) := by
  refine ⟨rfl, rfl, ?_⟩
  intro h
  rw [show (runMain "2026-02-03" failNet []).file = [("2026-02-03", emptyOut)] from rfl] at h
  exact List.noConfusion h

/-- C1 (amended): if every fetch is unsuccessful, the run skips the scalar
headline write, but the unconditional save phase still writes today's key
with the mapping whose three detail fields are all empty, and saves; the
backing file becomes the old contents with today's entry set to that value. -/
theorem C1_fetch_failure_still_writes (today : String) (net : Nat → Response)
    (contents : List (String × JVal)) (hfail : ∀ i, (net i).ok = false) :
    runMain today net contents =
      ⟨dictUpd contents today emptyOut, dictUpd contents today emptyOut⟩ := by
  have hfeat : scrape_featured_headlines (net (0 + 1)) = .ok [] := by
    simp [scrape_featured_headlines, hfail]
  have hsoc : scrape_social_media_links (net (0 + 3)) = .ok [] := by
    simp [scrape_social_media_links, hfail]
  have hrun := runScrape_spec net 0 [] [] hfeat hsoc
  have hdp : scrape_data_point (net 0) = none := by
    simp [scrape_data_point, hfail]
  have hmr : scrape_most_recent_headlines (net (0 + 2)) = [] := by
    simp [scrape_most_recent_headlines, hfail]
  unfold runMain
  rw [hrun]
  simp [savePhase, hdp, hmr, myOut, DEM.load, DEM.add_today, DEM.save, emptyOut]

/-- C1 witness: a concrete failing run appends today's empty-valued entry
after the pre-existing day. -/
theorem C1_fetch_failure_still_writes_witness :
    runMain "2026-02-03" failNet [("2026-01-01", JVal.s "old")] =
      ⟨[("2026-01-01", JVal.s "old"), ("2026-02-03", emptyOut)],
       [("2026-01-01", JVal.s "old"), ("2026-02-03", emptyOut)]⟩ := by
  have h := C1_fetch_failure_still_writes "2026-02-03" failNet
    [("2026-01-01", JVal.s "old")] (fun _ => rfl)
  exact h

/-- C2 counterexample: on a concrete run the fetch counter advances by
four, not one — the orchestrator does not perform exactly one fetch. -/
theorem C2_counterexample :
    (runScrape ⟨failNet, 0⟩).2.count = 4 ∧
    ¬ (runScrape ⟨failNet, 0⟩).2.count = 1 := by
  refine ⟨rfl, ?_⟩
  intro h
  rw [show (runScrape ⟨failNet, 0⟩).2.count = 4 from rfl] at h
  exact absurd h (by decide)

/-- C2 (amended): the orchestrator performs one fetch per extractor — four
fetches on a run where neither fallible extractor raises — and each
extractor operates on the parsed document of its own fetch, not on one
shared document. -/
theorem C2_four_fetches (net : Nat → Response) (l : List String)
    (d : List (String × String))
    (hfeat : scrape_featured_headlines (net 1) = .ok l)
    (hsoc : scrape_social_media_links (net 3) = .ok d) :
    runScrape ⟨net, 0⟩ =
      (⟨scrape_data_point (net 0), some l,
        some (scrape_most_recent_headlines (net 2)), some d⟩,
       ⟨net, 4⟩) :=
  runScrape_spec net 0 l d hfeat hsoc

/-- C2 witness: the amended statement evaluated on the all-failing network. -/
theorem C2_four_fetches_witness :
    runScrape ⟨failNet, 0⟩ =
      (⟨none, some [], some [], some []⟩, ⟨failNet, 4⟩) := by
  have h := C2_four_fetches failNet [] [] rfl rfl
  exact h

/-- C3 counterexample: on a document whose front-page link text is " X "
the headline extractor returns the untrimmed " X ", not the trimmed "X";
and on a failed fetch it returns Python None, not the empty string. -/
theorem C3_counterexample :
    scrape_data_point c3resp = some " X " ∧
    pyStrip " X " = "X" ∧
    ¬ scrape_data_point c3resp = some (pyStrip " X ") ∧
    scrape_data_point failResp = none ∧
    ¬ scrape_data_point failResp = some "" := by
  exact ⟨rfl, rfl, by decide, rfl, by decide⟩

/-- C3 (amended): on a successful fetch the headline extractor returns the
front-page-link element's exact text WITHOUT trimming, or the empty string
when no such element exists; it never raises (it is a total function); and
on an unsuccessful fetch it returns Python None (no value), not the empty
string. -/
theorem C3_headline_untrimmed (req : Response) :
    (∀ e, req.ok = true → findN req.doc (isSel "a" "frontpage-link") = some e →
      scrape_data_point req = some (nodeText e)) ∧
    (req.ok = true → findN req.doc (isSel "a" "frontpage-link") = none →
      scrape_data_point req = some "") ∧
    (req.ok = false → scrape_data_point req = none) := by
  refine ⟨?_, ?_, ?_⟩
  · intro e hok hfind
    simp [scrape_data_point, hok, hfind]
  · intro hok hfind
    simp [scrape_data_point, hok, hfind]
  · intro hok
    simp [scrape_data_point, hok]

/-- C3 witness: the amended statement evaluated on concrete responses. -/
theorem C3_headline_untrimmed_witness :
    scrape_data_point c3resp = some " X " ∧
    scrape_data_point failResp = none := by
  constructor
  · exact (C3_headline_untrimmed c3resp).1
      (Node.el "a" [("class", "frontpage-link")] [Node.txt " X "]) rfl rfl
  · exact (C3_headline_untrimmed failResp).2.2 rfl

/-- C4 (confirmed): on a successful fetch where every special-edition
container holds a nested link matching the required class signature, the
featured-headlines extractor returns exactly one trimmed string per
container, in document order. -/
theorem C4_featured_per_container (req : Response) (hok : req.ok = true)
    (hall : ∀ d ∈ specialDivs req.doc, (featLink d).isSome = true) :
    ∃ l, scrape_featured_headlines req = .ok l ∧
      l.length = (specialDivs req.doc).length ∧
      l.map some =
        (specialDivs req.doc).map (fun d => (featLink d).map fun a => pyStrip (nodeText a)) := by
  have h : ∀ o ∈ (specialDivs req.doc).map featLink, o.isSome = true := by
    intro o ho
    obtain ⟨d, hd, rfl⟩ := List.mem_map.mp ho
    exact hall d hd
  obtain ⟨l, hl, hmap⟩ := textsOf_allSome _ h
  refine ⟨l, ?_, ?_, ?_⟩
  · simp [scrape_featured_headlines, hok, hl]
  · have hlen := congrArg List.length hmap
    simpa using hlen
  · rw [hmap, List.map_map]
    rfl

/-- C4 witness: the theorem evaluated on a concrete two-container document. -/
theorem C4_featured_per_container_witness :
    ∃ l, scrape_featured_headlines c4resp = .ok l ∧
      l.length = (specialDivs c4resp.doc).length ∧
      l.map some =
        (specialDivs c4resp.doc).map (fun d => (featLink d).map fun a => pyStrip (nodeText a)) :=
  C4_featured_per_container c4resp rfl (by decide)

/-- C5 (confirmed): on a successful fetch, a special-edition container with
no nested link matching the required class signature makes the
featured-headlines extractor raise (return an error) rather than skip the
container. -/
theorem C5_missing_link_raises (req : Response) (hok : req.ok = true)
    (hmiss : ∃ d ∈ specialDivs req.doc, (featLink d).isNone = true) :
    ∃ e, scrape_featured_headlines req = .error e := by
  obtain ⟨d, hd, hnone⟩ := hmiss
  have hmem : (none : Option Node) ∈ (specialDivs req.doc).map featLink :=
    List.mem_map.mpr ⟨d, hd, Option.isNone_iff_eq_none.mp hnone⟩
  obtain ⟨e, he⟩ := textsOf_hasNone _ hmem
  exact ⟨e, by simp [scrape_featured_headlines, hok, he]⟩

/-- C5 witness: the theorem evaluated on a concrete document whose single
special-edition container lacks the required link. -/
theorem C5_missing_link_raises_witness :
    ∃ e, scrape_featured_headlines c5resp = .error e :=
  C5_missing_link_raises c5resp rfl (by decide)

/-- C6 (confirmed): on a successful fetch the recent-headlines extractor
returns the trimmed text of each sidebar-story container in document order,
and an empty sequence (without raising — it is a total function) when no
such container exists. -/
theorem C6_recent_all_containers (req : Response) (hok : req.ok = true) :
    scrape_most_recent_headlines req =
      (sidebarDivs req.doc).map (fun d => pyStrip (nodeText d)) ∧
    (sidebarDivs req.doc = [] → scrape_most_recent_headlines req = []) := by
  constructor
  · simp [scrape_most_recent_headlines, hok]
  · intro h
    simp [scrape_most_recent_headlines, hok, h]

/-- C6 witness: the theorem evaluated on a concrete container-free document. -/
theorem C6_recent_all_containers_witness :
    scrape_most_recent_headlines c8resp = [] :=
  (C6_recent_all_containers c8resp rfl).2 rfl

/-- C7 (confirmed): on the concrete social-icons list with a facebook link,
a twitter link and one unrelated link, the social-links extractor returns
exactly the facebook/twitter mapping with no third key; in general every
link is handled by substring classification against the three platform
domains, a later link for a platform overwrites an earlier one, and
unclassifiable links are dropped. -/
theorem C7_social_classification :
    scrape_social_media_links c7resp =
      .ok [("facebook", "https://facebook.com/x"), ("twitter", "https://twitter.com/y")] ∧
    (∀ out link, formatStep out link =
      match classifyKey link with
      | some k => dictUpd out k link
      | none => out) ∧
    (∀ links link k, classifyKey link = some k →
      List.lookup k (formatLinks (links ++ [link])) = some link) ∧
    (∀ links link, classifyKey link = none →
      formatLinks (links ++ [link]) = formatLinks links) := by
  refine ⟨rfl, formatStep_classify, ?_, ?_⟩
  · intro links link k hk
    have hsplit : formatLinks (links ++ [link]) = formatStep (formatLinks links) link := by
      simp [formatLinks, List.foldl_append]
    rw [hsplit, formatStep_classify, hk]
    exact lookup_dictUpd _ _ _
  · intro links link hk
    have hsplit : formatLinks (links ++ [link]) = formatStep (formatLinks links) link := by
      simp [formatLinks, List.foldl_append]
    rw [hsplit, formatStep_classify, hk]

/-- C7 witness: overwrite and drop behaviour evaluated on concrete links. -/
theorem C7_social_classification_witness :
    List.lookup "twitter"
      (formatLinks (["https://twitter.com/a"] ++ ["https://twitter.com/b"])) =
      some "https://twitter.com/b" ∧
    formatLinks (["https://facebook.com/x"] ++ ["https://example.com/z"]) =
      formatLinks ["https://facebook.com/x"] := by
  constructor
  · exact C7_social_classification.2.2.1 ["https://twitter.com/a"]
      "https://twitter.com/b" "twitter" (by decide)
  · exact C7_social_classification.2.2.2 ["https://facebook.com/x"]
      "https://example.com/z" (by decide)

/-- C8 (confirmed): on a successful fetch of a document with no
social-icons list, the social-links extractor propagates the
attribute-access error instead of returning any mapping. -/
theorem C8_missing_container_raises (req : Response) (hok : req.ok = true)
    (habs : findN req.doc (isSel "ul" "social-icons") = none) :
    scrape_social_media_links req = .error "AttributeError" ∧
    ∀ d, ¬ scrape_social_media_links req = .ok d := by
  have h : scrape_social_media_links req = .error "AttributeError" := by
    simp [scrape_social_media_links, hok, habs]
  refine ⟨h, ?_⟩
  intro d hd
  rw [h] at hd
  exact Except.noConfusion hd

/-- C8 witness: the theorem evaluated on a concrete container-free document. -/
theorem C8_missing_container_raises_witness :
    scrape_social_media_links c8resp = .error "AttributeError" :=
  (C8_missing_container_raises c8resp rfl rfl).1

/-- C9 (confirmed): writing twice under the same day key overwrites (the
second value is read back, and the key occurs exactly once), and in a run
the combined mapping written second is the value found for today after the
run — the scalar headline written first is replaced. -/
theorem C9_same_day_overwrite (st : List (String × JVal)) (k : String) (a b : JVal)
    (h : countKey k st ≤ 1) :
    List.lookup k (dictUpd (dictUpd st k a) k b) = some b ∧
    countKey k (dictUpd (dictUpd st k a) k b) = 1 ∧
    (∀ today net contents dp,
      (runScrape ⟨net, 0⟩).1.data_point = some dp →
      List.lookup today (runMain today net contents).file =
        some (JVal.obj (myOut (runScrape ⟨net, 0⟩).1)) ∧
      ¬ JVal.obj (myOut (runScrape ⟨net, 0⟩).1) = JVal.s dp) := by
  refine ⟨lookup_dictUpd _ _ _, ?_, ?_⟩
  · exact countKey_dictUpd _ _ _ (le_of_eq (countKey_dictUpd st k a h))
  · intro today net contents dp hdp
    refine ⟨(lookup_runMain today net contents).2, ?_⟩
    intro hcontra
    exact JVal.noConfusion hcontra

/-- C9 witness: the theorem evaluated on a concrete store and a concrete
run in which the scalar headline is written and then overwritten. -/
theorem C9_same_day_overwrite_witness :
    List.lookup "2026-02-03"
      (dictUpd (dictUpd [] "2026-02-03" (JVal.s "h")) "2026-02-03" emptyOut) =
      some emptyOut ∧
    List.lookup "2026-02-03" (runMain "2026-02-03" goodNet []).file =
      some (JVal.obj (myOut (runScrape ⟨goodNet, 0⟩).1)) := by
  have h := C9_same_day_overwrite [] "2026-02-03" (JVal.s "h") emptyOut (by decide)
  exact ⟨h.1, (h.2.2 "2026-02-03" goodNet [] "" rfl).1⟩

/-- C10 (confirmed): every run saves at the end (the file equals the
in-memory store), the saved file holds today's key with the combined
mapping built from the run's results, and when all four results are None
that mapping is empty. -/
theorem C10_always_writes_today (today : String) (net : Nat → Response)
    (contents : List (String × JVal)) :
    (runMain today net contents).file = (runMain today net contents).mem ∧
    List.lookup today (runMain today net contents).file =
      some (JVal.obj (myOut (runScrape ⟨net, 0⟩).1)) ∧
    (∀ r : RunResults, r.data_point = none → r.feat_headlines = none →
      r.most_recent = none → r.social_media = none → myOut r = []) := by
  refine ⟨(lookup_runMain today net contents).1,
    (lookup_runMain today net contents).2, ?_⟩
  intro r h1 h2 h3 h4
  simp [myOut, h2, h3, h4]

/-- C10 witness: on a run where the social extractor raises (all results
None), today's saved value is the empty mapping. -/
theorem C10_always_writes_today_witness :
    List.lookup "2026-02-03" (runMain "2026-02-03" crashNet []).file =
      some (JVal.obj []) ∧
    myOut ⟨none, none, none, none⟩ = [] := by
  have h := C10_always_writes_today "2026-02-03" crashNet []
  exact ⟨h.2.1, h.2.2 ⟨none, none, none, none⟩ rfl rfl rfl rfl⟩

end DPS
